import Mathlib

/-!
Shallow embedding of `Native Instruments/nihia.py`, a host-side encoder for
the NIHIA MIDI sysex protocol (handshake, button lights, OLED display text,
mixer-info reports).

Python semantics modelled explicitly:
* a dictionary `.get(k)` returns the stored value or `None` on a miss;
* the stored values of the `buttons` dictionary are heterogeneous: plain
  integers or two-element lists, captured by the `PyVal` type;
* `bytes(lst)` / `bytearray(lst)` succeed only when every element is an
  integer in `0..255`; a `None`, a list, or an out-of-range integer raises
  (`TypeError` / `ValueError`), so no message reaches the transport sink.
  This is captured by `pyBytes : List PyVal → Option (List Nat)`, where
  `none` means the conversion raised and nothing was handed to
  `device.midiOutSysex`.
Each encoding function returns the byte list handed to the sink, or `none`
when assembly raised.
-/

namespace Nihia

/-- A value that can appear in a Python list handed to `bytearray`/`bytes`:
an integer, `None` (the result of a failed dictionary `.get`), or a list
(the hetereogeneous pair entries of the `buttons` dictionary). -/
inductive PyVal where
  | int : Nat → PyVal
  | pynone : PyVal
  | pylist : List Nat → PyVal
deriving DecidableEq

/-- One element of a `bytes(...)` conversion: succeeds only for an integer
in `0..255`. -/
def pyByte : PyVal → Option Nat
  | PyVal.int n => if n < 256 then some n else none
  | PyVal.pynone => none
  | PyVal.pylist _ => none

/-- Python `bytes(lst)`: the whole conversion raises (returns `none`) as
soon as any element is not an integer in `0..255`. -/
def pyBytes : List PyVal → Option (List Nat)
  | [] => some []
  | v :: r =>
    match pyByte v, pyBytes r with
    | some b, some bs => some (b :: bs)
    | _, _ => none

/-- The `buttons` dictionary of the source: button name to DATA1 byte, or,
for the 4D-encoder motion pseudo-events, a fixed `[data1, data2]` pair. -/
def buttons : List (String × PyVal) :=
  [("PLAY", PyVal.int 16),
   ("RESTART", PyVal.int 17),
   ("REC", PyVal.int 18),
   ("COUNT_IN", PyVal.int 19),
   ("STOP", PyVal.int 20),
   ("CLEAR", PyVal.int 21),
   ("LOOP", PyVal.int 22),
   ("METRO", PyVal.int 23),
   ("TEMPO", PyVal.int 24),
   ("UNDO", PyVal.int 32),
   ("REDO", PyVal.int 33),
   ("QUANTIZE", PyVal.int 34),
   ("AUTO", PyVal.int 35),
   ("MUTE", PyVal.int 67),
   ("SOLO", PyVal.int 68),
   ("ENCODER_BUTTON", PyVal.int 96),
   ("SHIFT+ENCODER_BUTTON", PyVal.int 97),
   ("ENCODER_RIGHT", PyVal.pylist [50, 1]),
   ("ENCODER_LEFT", PyVal.pylist [50, 127]),
   ("ENCODER_UP", PyVal.pylist [48, 127]),
   ("ENCODER_DOWN", PyVal.pylist [48, 1]),
   ("ENCODER_PLUS", PyVal.pylist [52, 1]),
   ("ENCODER_MINUS", PyVal.pylist [52, 127]),
   ("ENCODER_HORIZONTAL", PyVal.int 50),
   ("ENCODER_VERTICAL", PyVal.int 48),
   ("ENCODER_SPIN", PyVal.int 52)]

/-- Python dictionary `.get`: the stored value, or `None` on a miss. -/
def dictGet (d : List (String × PyVal)) (k : String) : PyVal :=
  match d.lookup k with
  | some v => v
  | none => PyVal.pynone

/-- `dataOut(data1, data2)`: prepends the `[240, 191]` header and sends
`bytes(bytearray([240, 191, data1, data2]))` to the device. -/
def dataOut (data1 data2 : PyVal) : Option (List Nat) :=
  pyBytes [PyVal.int 240, PyVal.int 191, data1, data2]

/-- The local `lightModes` dictionary of `buttonSetLight`. -/
def lightModes : List (Nat × Nat) := [(0, 0), (1, 1)]

/-- `lightModes.get(lightMode)` as a `PyVal` (`None` on a miss). -/
def lightGet (m : Nat) : PyVal :=
  match lightModes.lookup m with
  | some v => PyVal.int v
  | none => PyVal.pynone

/-- `buttonSetLight(buttonName, lightMode)`:
`dataOut(buttons.get(buttonName), lightModes.get(lightMode))`. -/
def buttonSetLight (buttonName : String) (lightMode : Nat) : Option (List Nat) :=
  dataOut (dictGet buttons buttonName) (lightGet lightMode)

/-- `initiate()`: sends the handshake message `dataOut(1, 1)`. -/
def initiate : Option (List Nat) :=
  dataOut (PyVal.int 1) (PyVal.int 1)

/-- `terminate()`: sends the goodbye message `dataOut(2, 1)`. -/
def terminate : Option (List Nat) :=
  dataOut (PyVal.int 2) (PyVal.int 1)

/-- `restartProtocol()`: calls `terminate()` then `initiate()`. The result
is the trace of frames actually handed to the sink, in order. -/
def restartProtocol : List (List Nat) :=
  terminate.toList ++ initiate.toList

/-- The code-point translation stage of `KPrntScrn`: the `lettersh` array.
If the word has at most 10 letters it is converted whole; otherwise only
its first 11 letters are converted. -/
def lettersh (word : String) : List Nat :=
  let letters := word.toList
  if letters.length ≤ 10 then letters.map Char.toNat
  else (letters.take 11).map Char.toNat

/-- `KPrntScrn(trkn, word, delaytime)`: the display-text frame.
Header `[240, 0, 33, 9, 0, 0, 68, 67, 1, 0, 72, 0]`, then the track
number, then the retained code points, then the terminator `247`; the
whole list goes through `bytes(...)`. -/
def KPrntScrn (trkn : Nat) (word : String) (delaytime : Nat) : Option (List Nat) :=
  pyBytes (([240, 0, 33, 9, 0, 0, 68, 67, 1, 0, 72, 0].map PyVal.int)
    ++ [PyVal.int trkn] ++ (lettersh word).map PyVal.int ++ [PyVal.int 247])

/-- The `mixerinfo_types` dictionary: mixer-info kind to identifier byte. -/
def mixerinfo_types : List (String × Nat) :=
  [("VOLUME", 70),
   ("PAN", 71),
   ("IS_MUTE", 67),
   ("IS_SOLO", 68),
   ("NAME", 72),
   ("EXIST", 64),
   ("SELECTED", 66)]

/-- `mixerinfo_types.get(info_type)` as a `PyVal` (`None` on a miss). -/
def mixerGet (k : String) : PyVal :=
  match mixerinfo_types.lookup k with
  | some v => PyVal.int v
  | none => PyVal.pynone

/-- `info.encode("UTF-8")` followed by `list(bytes(info))`: the UTF-8 bytes
of the string, as natural numbers. -/
def utf8Bytes (s : String) : List Nat :=
  s.toUTF8.data.toList.map (fun b => b.toNat)

/-- `mixerSendInfo(info_type, trackID, **kwargs)` with `value` the
`kwargs.get("value", 0)` result and `info` the `kwargs.get("info", None)`
result. With `info` present the frame carries the UTF-8 bytes of `info`
before the terminator; without it the frame is the fixed 14-element list. -/
def mixerSendInfo (info_type : String) (trackID : Nat) (value : Nat)
    (info : Option String) : Option (List Nat) :=
  match info with
  | some s =>
    pyBytes (([240, 0, 33, 9, 0, 0, 68, 67, 1, 0].map PyVal.int)
      ++ [mixerGet info_type, PyVal.int value, PyVal.int trackID]
      ++ (utf8Bytes s).map PyVal.int ++ [PyVal.int 247])
  | none =>
    pyBytes (([240, 0, 33, 9, 0, 0, 68, 67, 1, 0].map PyVal.int)
      ++ [mixerGet info_type, PyVal.int value, PyVal.int trackID, PyVal.int 247])

/-! ### Basic lemmas about the Python byte-conversion model -/

theorem pyBytes_map_int (l : List Nat) (h : ∀ n ∈ l, n < 256) :
    pyBytes (l.map PyVal.int) = some l := by
  induction l with
  | nil => rfl
  | cons a t ih =>
    have ha : a < 256 := h a (List.mem_cons_self a t)
    have ht : ∀ n ∈ t, n < 256 := fun n hn => h n (List.mem_cons_of_mem _ hn)
    simp [pyBytes, pyByte, ha, ih ht]

theorem pyBytes_none_of_mem {l : List PyVal} {v : PyVal} (hv : v ∈ l)
    (h : pyByte v = none) : pyBytes l = none := by
  induction l with
  | nil => cases hv
  | cons a t ih =>
    rcases List.mem_cons.mp hv with rfl | hmem
    · simp [pyBytes, h]
    · cases hpa : pyByte a <;> simp [pyBytes, hpa, ih hmem]

theorem lookup_snd_mem {α β : Type} [BEq α] {l : List (α × β)} {k : α} {v : β}
    (h : l.lookup k = some v) : v ∈ l.map Prod.snd := by
  induction l with
  | nil => simp [List.lookup] at h
  | cons p t ih =>
    obtain ⟨a, b⟩ := p
    rw [List.lookup] at h
    cases hq : (k == a) with
    | true => rw [hq] at h; simp at h; simp [h]
    | false => rw [hq] at h; simp only [List.map_cons, List.mem_cons]; exact Or.inr (ih h)

/-- All UTF-8 bytes are below 256. -/
theorem utf8Bytes_lt (s : String) : ∀ n ∈ utf8Bytes s, n < 256 := by
  intro n hn
  simp only [utf8Bytes, List.mem_map] at hn
  obtain ⟨b, _, rfl⟩ := hn
  exact b.toNat_lt

/-- Every identifier byte stored in `mixerinfo_types` is below 256. -/
theorem mixer_lookup_lt {k : String} {v : Nat}
    (h : mixerinfo_types.lookup k = some v) : v < 256 := by
  have hm := lookup_snd_mem h
  have hall : ∀ n ∈ mixerinfo_types.map Prod.snd, n < 256 := by decide
  exact hall v hm

theorem mixerGet_eq {k : String} {v : Nat}
    (h : mixerinfo_types.lookup k = some v) : mixerGet k = PyVal.int v := by
  simp [mixerGet, h]

/-- A `Bool`-valued check that a stored button value, when it is a plain
integer, is below 256. -/
def pyValLt256 : PyVal → Bool
  | PyVal.int n => n < 256
  | _ => true

/-- Every plain-integer DATA1 value stored in `buttons` is below 256. -/
theorem buttons_int_lt {k : String} {d : Nat}
    (h : buttons.lookup k = some (PyVal.int d)) : d < 256 := by
  have hm := lookup_snd_mem h
  have hall : (buttons.map Prod.snd).all pyValLt256 = true := by decide
  have := List.all_eq_true.mp hall _ hm
  simpa [pyValLt256] using this

/-- The retained code points of `KPrntScrn` are uniformly the first 11
characters of the word (when the word has at most 10 characters, taking 11
keeps it whole). -/
theorem lettersh_eq (word : String) :
    lettersh word = (word.toList.take 11).map Char.toNat := by
  simp only [lettersh]
  split
  · next h => rw [List.take_of_length_le (by omega)]
  · rfl

/-- The display-text frame, given an in-range track number and in-range
retained code points. -/
theorem KPrntScrn_frame (trkn : Nat) (word : String) (d : Nat)
    (ht : trkn < 256) (hw : ∀ n ∈ lettersh word, n < 256) :
    KPrntScrn trkn word d =
      some ([240, 0, 33, 9, 0, 0, 68, 67, 1, 0, 72, 0]
        ++ [trkn] ++ lettersh word ++ [247]) := by
  unfold KPrntScrn
  rw [show [PyVal.int trkn] = [trkn].map PyVal.int from rfl,
    show [PyVal.int 247] = ([247] : List Nat).map PyVal.int from rfl,
    ← List.map_append, ← List.map_append, ← List.map_append]
  apply pyBytes_map_int
  intro n hn
  simp only [List.append_assoc, List.mem_append, List.mem_cons,
    List.mem_singleton, List.not_mem_nil, or_false] at hn
  rcases hn with h12 | h1 | hw' | h247
  · rcases h12 with rfl | rfl | rfl | rfl | rfl | rfl | rfl | rfl | rfl | rfl | rfl | rfl <;> omega
  · omega
  · exact hw n hw'
  · omega

/-- The mixer-info frame without text. -/
theorem mixer_noinfo_frame {k : String} {idB : Nat} (track value : Nat)
    (hk : mixerinfo_types.lookup k = some idB)
    (ht : track < 256) (hv : value < 256) :
    mixerSendInfo k track value none =
      some [240, 0, 33, 9, 0, 0, 68, 67, 1, 0, idB, value, track, 247] := by
  have hid := mixer_lookup_lt hk
  unfold mixerSendInfo
  rw [mixerGet_eq hk,
    show [PyVal.int idB, PyVal.int value, PyVal.int track, PyVal.int 247]
      = [idB, value, track, 247].map PyVal.int from rfl,
    ← List.map_append]
  apply pyBytes_map_int
  intro n hn
  simp only [List.mem_append, List.mem_cons, List.not_mem_nil, or_false] at hn
  omega

/-- The mixer-info frame with text: the UTF-8 bytes of the text sit between
the track byte and the terminator. -/
theorem mixer_info_frame {k : String} {idB : Nat} (track value : Nat) (s : String)
    (hk : mixerinfo_types.lookup k = some idB)
    (ht : track < 256) (hv : value < 256) :
    mixerSendInfo k track value (some s) =
      some ([240, 0, 33, 9, 0, 0, 68, 67, 1, 0, idB, value, track]
        ++ utf8Bytes s ++ [247]) := by
  have hid := mixer_lookup_lt hk
  simp only [mixerSendInfo]
  rw [mixerGet_eq hk,
    show [PyVal.int idB, PyVal.int value, PyVal.int track]
      = [idB, value, track].map PyVal.int from rfl,
    show [PyVal.int 247] = ([247] : List Nat).map PyVal.int from rfl,
    ← List.map_append, ← List.map_append, ← List.map_append]
  rw [show ([240, 0, 33, 9, 0, 0, 68, 67, 1, 0] ++ [idB, value, track] : List Nat)
      = [240, 0, 33, 9, 0, 0, 68, 67, 1, 0, idB, value, track] from rfl]
  apply pyBytes_map_int
  intro n hn
  rcases List.mem_append.mp hn with h1 | hend
  · rcases List.mem_append.mp h1 with hpre | hu
    · simp only [List.mem_cons, List.not_mem_nil, or_false] at hpre
      omega
    · exact utf8Bytes_lt s n hu
  · simp only [List.mem_singleton] at hend
    omega

/-! ### Claims -/

/-- Claim C1: display-text truncation boundary. A 10-character input is
code-point-translated in full, an 11-character input in full, and a
12-or-more-character input keeps only its first 11 code points, silently;
the encodings of an 11-character text and of any longer text sharing its
first 11 characters are byte-identical. -/
theorem display_truncation_boundary (slot : Nat) (word t2 : String) :
    (word.length = 10 → lettersh word = word.toList.map Char.toNat) ∧
    (word.length = 11 → lettersh word = word.toList.map Char.toNat) ∧
    (12 ≤ word.length → lettersh word = (word.toList.take 11).map Char.toNat) ∧
    (word.length = 11 → t2.toList.take 11 = word.toList →
      ∀ d, KPrntScrn slot t2 d = KPrntScrn slot word d) := by
  have hlen : word.toList.length = word.length := rfl
  refine ⟨?_, ?_, ?_, ?_⟩
  · intro h
    rw [lettersh_eq, List.take_of_length_le (by omega)]
  · intro h
    rw [lettersh_eq, List.take_of_length_le (by omega)]
  · intro _
    exact lettersh_eq word
  · intro h11 ht d
    have hl2 : lettersh t2 = lettersh word := by
      rw [lettersh_eq, lettersh_eq, ht, List.take_of_length_le (by omega)]
    unfold KPrntScrn
    rw [hl2]

/-- Witness for C1 at the spec's own example: "HELLOWORLD!" (11 chars) and
"HELLOWORLD!!" (12 chars) encode byte-identically. -/
theorem display_truncation_boundary_witness :
    "HELLOWORLD!".length = 11 ∧
    "HELLOWORLD!!".toList.take 11 = "HELLOWORLD!".toList ∧
    KPrntScrn 0 "HELLOWORLD!!" 0 = KPrntScrn 0 "HELLOWORLD!" 0 :=
  ⟨by decide, by decide,
    (display_truncation_boundary 0 "HELLOWORLD!" "HELLOWORLD!!").2.2.2
      (by decide) (by decide) 0⟩

/-- Claim C2, evaluated on the code at an unknown identifier: the failed
dictionary lookup yields `None`, which the byte assembly then rejects
(`TypeError` in Python), so no frame is sent — but no `UnknownIdentifier`
error kind exists anywhere in the code: the claim's required error is not
what the code raises. -/
theorem unknown_identifier_no_frame :
    buttonSetLight "UNKNOWN_BUTTON" 0 = none ∧
    mixerSendInfo "UNKNOWN_KIND" 0 0 none = none := by decide

/-- Claim C3: for every known mixer-info kind, in-range track slot and
value byte, the no-text encoding is exactly the fixed 14-byte frame. -/
theorem mixer_noinfo_encoding (k : String) (idB track value : Nat)
    (hk : mixerinfo_types.lookup k = some idB)
    (ht : track < 256) (hv : value < 256) :
    mixerSendInfo k track value none =
      some [240, 0, 33, 9, 0, 0, 68, 67, 1, 0, idB, value, track, 247] :=
  mixer_noinfo_frame track value hk ht hv

/-- Witness for C3 at the spec's example: IS_MUTE (identifier 67 = 0x43),
track 3, value 1. -/
theorem mixer_noinfo_encoding_witness :
    mixerinfo_types.lookup "IS_MUTE" = some 67 ∧
    mixerSendInfo "IS_MUTE" 3 1 none =
      some [240, 0, 33, 9, 0, 0, 68, 67, 1, 0, 67, 1, 3, 247] :=
  ⟨by decide,
    mixer_noinfo_encoding "IS_MUTE" 67 3 1 (by decide) (by decide) (by decide)⟩

/-- Claim C4: for every known mixer-info kind, in-range track slot and
value byte, and any provided text, the with-text encoding is the 13-byte
prefix, then the raw UTF-8 bytes of the text, then the terminator. -/
theorem mixer_info_encoding (k : String) (idB track value : Nat) (s : String)
    (hk : mixerinfo_types.lookup k = some idB)
    (ht : track < 256) (hv : value < 256) :
    mixerSendInfo k track value (some s) =
      some ([240, 0, 33, 9, 0, 0, 68, 67, 1, 0, idB, value, track]
        ++ utf8Bytes s ++ [247]) :=
  mixer_info_frame track value s hk ht hv

/-- Witness for C4 at the spec's example: NAME (identifier 72), track 2,
info "Kick". -/
theorem mixer_info_encoding_witness :
    utf8Bytes "Kick" = [75, 105, 99, 107] ∧
    mixerSendInfo "NAME" 2 0 (some "Kick") =
      some ([240, 0, 33, 9, 0, 0, 68, 67, 1, 0, 72, 0, 2]
        ++ utf8Bytes "Kick" ++ [247]) :=
  ⟨by decide,
    mixer_info_encoding "NAME" 72 2 0 "Kick" (by decide) (by decide) (by decide)⟩

/-- Counterexample to C5 as stated: at slot 0 and text "Ā" (single
character, code point 256) the byte conversion raises and no frame at all
is produced, instead of the claimed header-slot-codepoint-terminator
frame. -/
theorem display_text_frame_cex :
    lettersh "Ā" = [256] ∧ KPrntScrn 0 "Ā" 0 = none := by decide

/-- Claim C5 (amended): for every slot byte and every text whose retained
(first 11) characters all fit in one byte, the display-text encoding is
exactly the fixed 12-byte header, the slot byte, one code-point byte per
retained character, and the terminator, as a single frame. -/
theorem display_text_frame (slot : Nat) (word : String) (d : Nat)
    (hs : slot < 256)
    (hw : ∀ c ∈ word.toList.take 11, c.toNat < 256) :
    KPrntScrn slot word d =
      some ([240, 0, 33, 9, 0, 0, 68, 67, 1, 0, 72, 0]
        ++ [slot] ++ (word.toList.take 11).map Char.toNat ++ [247]) := by
  rw [← lettersh_eq]
  apply KPrntScrn_frame slot word d hs
  intro n hn
  rw [lettersh_eq] at hn
  obtain ⟨c, hc, rfl⟩ := List.mem_map.mp hn
  exact hw c hc

/-- Witness for C5 (amended) at slot 2, text "HELLO". -/
theorem display_text_frame_witness :
    (2 : Nat) < 256 ∧ (∀ c ∈ "HELLO".toList.take 11, c.toNat < 256) ∧
    KPrntScrn 2 "HELLO" 0 =
      some ([240, 0, 33, 9, 0, 0, 68, 67, 1, 0, 72, 0]
        ++ [2] ++ ("HELLO".toList.take 11).map Char.toNat ++ [247]) :=
  ⟨by decide, by decide, display_text_frame 2 "HELLO" 0 (by decide) (by decide)⟩

/-- Claim C6: restartProtocol hands exactly two frames to the sink, the
terminate frame first and the initiate frame second, never the reverse. -/
theorem restartProtocol_order :
    restartProtocol = [[240, 191, 2, 1], [240, 191, 1, 1]] ∧
    restartProtocol ≠ [[240, 191, 1, 1], [240, 191, 2, 1]] := by decide

/-- Counterexample to C7 as stated: "ENCODER_RIGHT" is a ButtonId of the
buttons table (with the pair value [50, 1]), yet setButtonLight produces no
4-byte frame for it at light state 0 — the byte assembly raises on the
pair. -/
theorem button_light_frame_cex :
    ("ENCODER_RIGHT", PyVal.pylist [50, 1]) ∈ buttons ∧
    buttonSetLight "ENCODER_RIGHT" 0 = none := by decide

/-- Claim C7 (amended): for every ButtonId whose table entry is a single
data1 byte and every light state in {0, 1}, setButtonLight produces exactly
`[240, 191, data1, state]`, the state passing through the identity mapping. -/
theorem button_light_frame (name : String) (d1 mode : Nat)
    (hb : buttons.lookup name = some (PyVal.int d1))
    (hm : mode = 0 ∨ mode = 1) :
    buttonSetLight name mode = some [240, 191, d1, mode] := by
  have hd : d1 < 256 := buttons_int_lt hb
  have hget : dictGet buttons name = PyVal.int d1 := by simp [dictGet, hb]
  rcases hm with rfl | rfl
  · simp only [buttonSetLight, hget, dataOut]
    show pyBytes ([240, 191, d1, 0].map PyVal.int) = some [240, 191, d1, 0]
    apply pyBytes_map_int
    intro n hn
    simp only [List.mem_cons, List.not_mem_nil, or_false] at hn
    omega
  · simp only [buttonSetLight, hget, dataOut]
    show pyBytes ([240, 191, d1, 1].map PyVal.int) = some [240, 191, d1, 1]
    apply pyBytes_map_int
    intro n hn
    simp only [List.mem_cons, List.not_mem_nil, or_false] at hn
    omega

/-- Witness for C7 (amended) at the PLAY button, light state 1. -/
theorem button_light_frame_witness :
    buttons.lookup "PLAY" = some (PyVal.int 16) ∧
    buttonSetLight "PLAY" 1 = some [240, 191, 16, 1] :=
  ⟨by decide, button_light_frame "PLAY" 16 1 (by decide) (Or.inr rfl)⟩

/-- Counterexample to C8 as stated: "HELLOWORLD!Ā" contains the character
'Ā' (code point 256 > 255), yet the encoding succeeds — the offending
character sits beyond the 11-character truncation point, is dropped, and a
full frame IS handed to the sink. -/
theorem nonencodable_char_cex :
    ('Ā' ∈ "HELLOWORLD!Ā".toList ∧ 255 < 'Ā'.toNat) ∧
    KPrntScrn 0 "HELLOWORLD!Ā" 0 =
      some [240, 0, 33, 9, 0, 0, 68, 67, 1, 0, 72, 0, 0,
        72, 69, 76, 76, 79, 87, 79, 82, 76, 68, 33, 247] := by decide

/-- Claim C8 (amended): for every text with a character of code point above
255 among its retained first 11 characters, the display-text encoding fails
at assembly time and no message is handed to the transport sink. -/
theorem nonencodable_char_fails (slot : Nat) (word : String) (d : Nat)
    (hw : ∃ c ∈ word.toList.take 11, 255 < c.toNat) :
    KPrntScrn slot word d = none := by
  obtain ⟨c, hc, hgt⟩ := hw
  have h1 : c.toNat ∈ lettersh word := by
    rw [lettersh_eq]
    exact List.mem_map_of_mem _ hc
  have h2 : PyVal.int c.toNat ∈ (lettersh word).map PyVal.int :=
    List.mem_map_of_mem _ h1
  have hmem : PyVal.int c.toNat ∈
      (([240, 0, 33, 9, 0, 0, 68, 67, 1, 0, 72, 0].map PyVal.int)
        ++ [PyVal.int slot] ++ (lettersh word).map PyVal.int
        ++ [PyVal.int 247]) := by
    simp only [List.append_assoc, List.mem_append]
    exact Or.inr (Or.inr (Or.inl h2))
  have hbyte : pyByte (PyVal.int c.toNat) = none := by
    have hnot : ¬ c.toNat < 256 := by omega
    simp [pyByte, hnot]
  unfold KPrntScrn
  exact pyBytes_none_of_mem hmem hbyte

/-- Witness for C8 (amended) at slot 5, text "Ā". -/
theorem nonencodable_char_fails_witness :
    (∃ c ∈ "Ā".toList.take 11, 255 < c.toNat) ∧ KPrntScrn 5 "Ā" 0 = none :=
  ⟨by decide, nonencodable_char_fails 5 "Ā" 0 (by decide)⟩

/-- Claim C9: for every ButtonId whose table value is a two-element pair
(the encoder-motion pseudo-events) and every light state in {0, 1},
setButtonLight assembles no well-formed frame: the byte conversion rejects
the pair-valued data1 and nothing reaches the sink. -/
theorem encoder_pair_no_frame (name : String) (l : List Nat) (mode : Nat)
    (hb : buttons.lookup name = some (PyVal.pylist l))
    (hm : mode = 0 ∨ mode = 1) :
    buttonSetLight name mode = none := by
  have hget : dictGet buttons name = PyVal.pylist l := by simp [dictGet, hb]
  simp only [buttonSetLight, hget, dataOut]
  have hmem : PyVal.pylist l ∈
      [PyVal.int 240, PyVal.int 191, PyVal.pylist l, lightGet mode] := by simp
  exact pyBytes_none_of_mem hmem rfl

/-- Witness for C9 at ENCODER_RIGHT, light state 1. -/
theorem encoder_pair_no_frame_witness :
    buttons.lookup "ENCODER_RIGHT" = some (PyVal.pylist [50, 1]) ∧
    buttonSetLight "ENCODER_RIGHT" 1 = none :=
  ⟨by decide,
    encoder_pair_no_frame "ENCODER_RIGHT" [50, 1] 1 (by decide) (Or.inr rfl)⟩

/-- Claim C10: for every known mixer-info kind, in-range track slot and
value byte, the empty-text encoding and the no-text encoding are
byte-identical, both being the fixed 14-byte frame. -/
theorem mixer_empty_info_eq (k : String) (idB track value : Nat)
    (hk : mixerinfo_types.lookup k = some idB)
    (ht : track < 256) (hv : value < 256) :
    mixerSendInfo k track value (some "") = mixerSendInfo k track value none ∧
    mixerSendInfo k track value none =
      some [240, 0, 33, 9, 0, 0, 68, 67, 1, 0, idB, value, track, 247] := by
  have h1 := mixer_info_frame track value "" hk ht hv
  have h2 := mixer_noinfo_frame track value hk ht hv
  have h0 : utf8Bytes "" = [] := by decide
  rw [h0] at h1
  refine ⟨?_, h2⟩
  rw [h1, h2]
  simp

/-- Witness for C10 at PAN (identifier 71), track 4, value 0. -/
theorem mixer_empty_info_eq_witness :
    mixerinfo_types.lookup "PAN" = some 71 ∧
    (mixerSendInfo "PAN" 4 0 (some "") = mixerSendInfo "PAN" 4 0 none ∧
     mixerSendInfo "PAN" 4 0 none =
       some [240, 0, 33, 9, 0, 0, 68, 67, 1, 0, 71, 0, 4, 247]) :=
  ⟨by decide, mixer_empty_info_eq "PAN" 71 4 0 (by decide) (by decide) (by decide)⟩

end Nihia
